import Mathlib

set_option maxHeartbeats 1000000

/-!
Verification development for the self-supervision-exploration repository: two
research notebooks (SimCLR pre-training of a Detectron2 backbone; MoCo on
CIFAR-10 with PyTorch Lightning), a Dockerfile and a docker-compose service.
The repository-defined code is shallowly embedded below: notebook cells and
the hook methods of the two `pl.LightningModule` subclasses are embedded as
values of a small imperative statement language (recording structure: calls,
conditionals, loops, try/except); the numeric computations the claims are
about (momentum update, optimizer steps, validation accuracy, batch
shuffle/unshuffle) are embedded as executable functions over `List ℚ` / lists.
-/

namespace SSL

/-- Imperative statement skeleton used to embed the repository's Python code.
An `atom` is an assignment or expression statement, carrying the names of the
library calls it performs (left to right); `ret` is a return statement;
`ifStmt`/`forLoop`/`tryStmt` record control structure.  The repository's code
never contains a `tryStmt`; the constructor exists so that "contains no
try/except" is a statement about the embedding, not a modelling artifact. -/
inductive Stmt where
  | atom (calls : List String)
  | ret (calls : List String)
  | skip
  | seq (a b : Stmt)
  | ifStmt (thenBr elseBr : Stmt)
  | forLoop (body : Stmt)
  | tryStmt (body handler : Stmt)
deriving DecidableEq

/-- A statement is straight-line when it is a sequence of plain
assignments/returns: no conditional, no loop, no try/except. -/
def straightLine : Stmt → Bool
  | .atom _ => true
  | .ret _ => true
  | .skip => true
  | .seq a b => straightLine a && straightLine b
  | .ifStmt _ _ => false
  | .forLoop _ => false
  | .tryStmt _ _ => false

/-- A statement contains no try/except anywhere. -/
def noTry : Stmt → Bool
  | .atom _ => true
  | .ret _ => true
  | .skip => true
  | .seq a b => noTry a && noTry b
  | .ifStmt t e => noTry t && noTry e
  | .forLoop b => noTry b
  | .tryStmt _ _ => false

/-- All library calls syntactically appearing in a statement. -/
def stmtCalls : Stmt → List String
  | .atom cs => cs
  | .ret cs => cs
  | .skip => []
  | .seq a b => stmtCalls a ++ stmtCalls b
  | .ifStmt t e => stmtCalls t ++ stmtCalls e
  | .forLoop b => stmtCalls b
  | .tryStmt b h => stmtCalls b ++ stmtCalls h

/-- Runtime decisions that are outside the embedded program: which branch a
conditional takes and how many iterations each loop performs. -/
structure Sched where
  branches : List Bool
  loops : List Nat
deriving DecidableEq

/-- Consume the next branch decision (defaulting to `false`). -/
def takeBranch : Sched → Bool × Sched
  | ⟨[], ls⟩ => (false, ⟨[], ls⟩)
  | ⟨b :: bs, ls⟩ => (b, ⟨bs, ls⟩)

/-- Consume the next loop iteration count (defaulting to `0`). -/
def takeLoop : Sched → Nat × Sched
  | ⟨bs, []⟩ => (0, ⟨bs, []⟩)
  | ⟨bs, n :: ls⟩ => (n, ⟨bs, ls⟩)

/-- Iterate a fallible step `n` times, threading the schedule and summing the
number of exceptions raised; the first uncaught error stops the iteration. -/
def iterE (step : Sched → Except String Sched × Nat) : Nat → Sched → Except String Sched × Nat
  | 0, d => (Except.ok d, 0)
  | n + 1, d =>
    match step d with
    | (Except.ok d', c) =>
      let r := iterE step n d'
      (r.1, c + r.2)
    | (Except.error e, c) => (Except.error e, c)

/-- Execute a statement.  `fails` says which library calls raise (and with
which message).  The result pairs the outcome (remaining schedule, or the
uncaught exception) with the total number of exceptions raised during the
run, whether or not they were caught by a `tryStmt`. -/
def runC (fails : String → Option String) (s : Stmt) (d : Sched) : Except String Sched × Nat :=
  match s with
  | .atom cs =>
    match cs.findSome? fails with
    | some e => (Except.error e, 1)
    | none => (Except.ok d, 0)
  | .ret cs =>
    match cs.findSome? fails with
    | some e => (Except.error e, 1)
    | none => (Except.ok d, 0)
  | .skip => (Except.ok d, 0)
  | .seq a b =>
    match runC fails a d with
    | (Except.ok d', c) =>
      let r := runC fails b d'
      (r.1, c + r.2)
    | (Except.error e, c) => (Except.error e, c)
  | .ifStmt t e =>
    let p := takeBranch d
    if p.1 then runC fails t p.2 else runC fails e p.2
  | .tryStmt b h =>
    match runC fails b d with
    | (Except.ok d', c) => (Except.ok d', c)
    | (Except.error _, c) =>
      let r := runC fails h d
      (r.1, c + r.2)
  | .forLoop body =>
    let p := takeLoop d
    iterE (fun dd => runC fails body dd) p.1 p.2
termination_by sizeOf s

/-- Outcome dichotomy of a run: either no exception was ever raised and the
run completed, or exactly one exception was raised and it is the uncaught
error that terminated the run (so nothing ran after the failure — no retry,
no recovery). -/
def dich (r : Except String Sched × Nat) : Prop :=
  (r.2 = 0 ∧ ∃ d, r.1 = Except.ok d) ∨ (r.2 = 1 ∧ ∃ e, r.1 = Except.error e)

/-- Sequence a list of statements into one statement. -/
def block : List Stmt → Stmt
  | [] => .skip
  | [s] => s
  | s :: rest => .seq s (block rest)

/-! Embedding of the SimCLR / Detectron2 notebook (pre-train a Detectron2
backbone with Lightly).  One definition per code cell, in notebook order;
each `atom` lists the library calls the statement performs. -/

namespace SimClrNb

/-- Cell: imports. -/
def importsCell : Stmt := .atom []

/-- Cell: configuration constants; device is picked with a conditional
expression over torch.cuda.is_available(). -/
def configCell : Stmt := .atom ["torch.cuda.is_available"]

/-- Cell: hard-coded dataset and config paths. -/
def pathsCell : Stmt := .atom []

/-- SelectStage.__init__ (subclass of torch.nn.Module). -/
def SelectStage_init : Stmt := block [.atom ["super().__init__"], .atom []]

/-- SelectStage.forward: returns x[self.stage]. -/
def SelectStage_forward : Stmt := .ret []

/-- Cell: load the Detectron2 config and adjust device/weights/format. -/
def cfgCell : Stmt :=
  block [.atom ["config.get_cfg"], .atom ["cfg.merge_from_file"], .atom [], .atom [], .atom []]

/-- Cell: build the Detectron2 model and wrap its bottom-up backbone. -/
def modelCell : Stmt :=
  block [.atom ["modeling.build_model"],
    .atom ["torch.nn.Sequential", "SelectStage", "torch.nn.AdaptiveAvgPool2d", "Sequential.to"]]

/-- Cell: construct the SimCLR projection head. -/
def projectionHeadCell : Stmt := .atom ["SimCLRProjectionHead", "SimCLRProjectionHead.to"]

/-- Cell: transform, dataset and dataloader construction. -/
def dataCell : Stmt :=
  block [.atom ["SimCLRTransform"], .atom ["LightlyDataset"], .atom ["torch.utils.data.DataLoader"]]

/-- Body of the inner `for (x0, x1), _, _ in dataloader_train_simclr` loop:
move both views to the device, two forward passes, loss, backward, optimizer
step, zero_grad, and the running mean-loss update. -/
def batchLoopBody : Stmt :=
  block [.atom ["Tensor.to"], .atom ["Tensor.to"],
    .atom ["simclr_backbone", "Tensor.flatten", "projection_head"],
    .atom ["simclr_backbone", "Tensor.flatten", "projection_head"],
    .atom ["criterion"], .atom ["loss.backward"], .atom ["optimizer.step"],
    .atom ["optimizer.zero_grad"],
    .atom ["loss.detach", "Tensor.cpu", "Tensor.item", "len"]]

/-- Cell: loss and optimizer construction followed by the manual epoch loop
(`for e in range(max_epochs)`), whose body resets the mean loss, runs the
batch loop and prints the epoch summary. -/
def trainingCell : Stmt :=
  block [.atom ["NTXentLoss"], .atom ["torch.optim.Adam"],
    .forLoop (block [.atom [], .forLoop batchLoopBody, .atom ["print"]])]

/-- Cell: reinstall the pre-trained backbone and save the checkpoint once. -/
def checkpointCell : Stmt :=
  block [.atom [], .atom ["DetectionCheckpointer"], .atom ["DetectionCheckpointer.save"]]

end SimClrNb

/-! Embedding of the MoCo-on-CIFAR-10 notebook: cells and the bodies of every
method of the two pl.LightningModule subclasses (MocoModel, Classifier). -/

namespace MoCoNb

/-- Cell: imports. -/
def importsCell : Stmt := .atom []

/-- Cell: configuration constants (num_workers, batch_size, ...). -/
def configCell : Stmt := .atom []

/-- Cell: hard-coded dataset paths. -/
def pathsCell : Stmt := .atom []

/-- Cell: global seeding. -/
def seedCell : Stmt := .atom ["pl.seed_everything"]

/-- Cell: MoCo-v2 augmentation pipeline. -/
def transformCell : Stmt := .atom ["MoCoV2Transform"]

/-- Cell: torchvision transforms for classifier training/test and the three
LightlyDataset constructions. -/
def datasetsCell : Stmt :=
  block [.atom ["torchvision.transforms.Compose", "torchvision.transforms.RandomCrop",
      "torchvision.transforms.RandomHorizontalFlip", "torchvision.transforms.ToTensor",
      "torchvision.transforms.Normalize"],
    .atom ["torchvision.transforms.Compose", "torchvision.transforms.Resize",
      "torchvision.transforms.ToTensor", "torchvision.transforms.Normalize"],
    .atom ["LightlyDataset"], .atom ["LightlyDataset"], .atom ["LightlyDataset"]]

/-- Cell: the three DataLoader constructions. -/
def dataloadersCell : Stmt :=
  block [.atom ["torch.utils.data.DataLoader"], .atom ["torch.utils.data.DataLoader"],
    .atom ["torch.utils.data.DataLoader"]]

/-- MocoModel.__init__: backbone assembly, projection head, the two deep
copies, gradient deactivation on both copies, and the loss with memory bank. -/
def MocoModel_init : Stmt :=
  block [.atom ["super().__init__"], .atom [],
    .atom ["torchvision.models.mobilenet_v2"],
    .atom ["nn.Sequential", "nn.AdaptiveAvgPool2d", "nn.Flatten", "nn.Linear"],
    .atom ["MoCoProjectionHead"], .atom ["copy.deepcopy"], .atom ["copy.deepcopy"],
    .atom ["deactivate_requires_grad"], .atom ["deactivate_requires_grad"],
    .atom ["NTXentLoss"]]

/-- MocoModel.training_step: momentum updates, query forward pass, key path
(shuffle, momentum forward, unshuffle), loss, log, return. -/
def MocoModel_training_step : Stmt :=
  block [.atom [], .atom ["update_momentum"], .atom ["update_momentum"],
    .atom ["self.backbone", "Tensor.flatten"], .atom ["self.projection_head"],
    .atom ["batch_shuffle"], .atom ["self.backbone_momentum", "Tensor.flatten"],
    .atom ["self.projection_head_momentum"], .atom ["batch_unshuffle"],
    .atom ["self.criterion"], .atom ["self.log"], .ret []]

/-- MocoModel.on_train_epoch_end: a single helper call. -/
def MocoModel_on_train_epoch_end : Stmt := .atom ["self.custom_histogram_weights"]

/-- MocoModel.custom_histogram_weights: loops over named_parameters logging
histograms (helper, not a framework-mandated hook). -/
def MocoModel_custom_histogram_weights : Stmt :=
  block [.atom ["self.named_parameters"],
    .forLoop (.atom ["self.logger.experiment.add_histogram"])]

/-- MocoModel.configure_optimizers: SGD over self.parameters() plus a cosine
annealing scheduler. -/
def MocoModel_configure_optimizers : Stmt :=
  block [.atom ["torch.optim.SGD"], .atom ["torch.optim.lr_scheduler.CosineAnnealingLR"], .ret []]

/-- Classifier.__init__: store the pretrained backbone, deactivate its
gradients, build the linear head, loss, and the empty output buffer. -/
def Classifier_init : Stmt :=
  block [.atom ["super().__init__"], .atom [], .atom ["deactivate_requires_grad"],
    .atom ["nn.Linear"], .atom ["nn.CrossEntropyLoss"], .atom []]

/-- Classifier.forward: frozen-backbone features, flatten, linear head. -/
def Classifier_forward : Stmt :=
  block [.atom ["self.backbone", "Tensor.flatten"], .atom ["self.fc"], .ret []]

/-- Classifier.training_step: forward, cross-entropy loss, log, return. -/
def Classifier_training_step : Stmt :=
  block [.atom [], .atom ["self.forward"], .atom ["self.criterion"], .atom ["self.log"], .ret []]

/-- Classifier.on_train_epoch_end: a single helper call. -/
def Classifier_on_train_epoch_end : Stmt := .atom ["self.custom_histogram_weights"]

/-- Classifier.custom_histogram_weights (helper, not a hook). -/
def Classifier_custom_histogram_weights : Stmt :=
  block [.atom ["self.named_parameters"],
    .forLoop (.atom ["self.logger.experiment.add_histogram"])]

/-- Classifier.validation_step: forward, softmax, argmax, batch size, correct
count, append to the output buffer, return. -/
def Classifier_validation_step : Stmt :=
  block [.atom [], .atom ["self.forward"], .atom ["torch.nn.functional.softmax"],
    .atom ["torch.max"], .atom [], .atom ["Tensor.float", "Tensor.sum"],
    .atom ["list.append"], .ret []]

/-- Classifier.on_validation_epoch_end: guarded on the output buffer being
non-empty, it accumulates totals in a loop, divides, logs, and clears the
buffer; nothing happens on the empty branch. -/
def Classifier_on_validation_epoch_end : Stmt :=
  .ifStmt
    (block [.atom [], .atom [], .forLoop (.atom []), .atom [], .atom ["self.log"],
      .atom ["list.clear"]])
    .skip

/-- Classifier.configure_optimizers: SGD over self.fc.parameters() plus a
cosine annealing scheduler. -/
def Classifier_configure_optimizers : Stmt :=
  block [.atom ["torch.optim.SGD"], .atom ["torch.optim.lr_scheduler.CosineAnnealingLR"], .ret []]

/-- Cell: construct MocoModel and the Trainer and delegate training. -/
def fitMocoCell : Stmt :=
  block [.atom ["MocoModel"], .atom ["pl.Trainer"], .atom ["trainer.fit"]]

/-- Cell: eval mode, construct Classifier and the Trainer and delegate
training (with the test dataloader for validation). -/
def fitClassifierCell : Stmt :=
  block [.atom ["model.eval"], .atom ["Classifier"], .atom ["pl.Trainer"], .atom ["trainer.fit"]]

end MoCoNb

/-- Every statement of repository-defined executable code: all code cells of
both notebooks and all method bodies of the two LightningModule subclasses
plus the torch.nn.Module subclass. -/
def repoStmts : List Stmt :=
  [SimClrNb.importsCell, SimClrNb.configCell, SimClrNb.pathsCell,
   SimClrNb.SelectStage_init, SimClrNb.SelectStage_forward, SimClrNb.cfgCell,
   SimClrNb.modelCell, SimClrNb.projectionHeadCell, SimClrNb.dataCell,
   SimClrNb.trainingCell, SimClrNb.checkpointCell,
   MoCoNb.importsCell, MoCoNb.configCell, MoCoNb.pathsCell, MoCoNb.seedCell,
   MoCoNb.transformCell, MoCoNb.datasetsCell, MoCoNb.dataloadersCell,
   MoCoNb.MocoModel_init, MoCoNb.MocoModel_training_step,
   MoCoNb.MocoModel_on_train_epoch_end, MoCoNb.MocoModel_custom_histogram_weights,
   MoCoNb.MocoModel_configure_optimizers,
   MoCoNb.Classifier_init, MoCoNb.Classifier_forward, MoCoNb.Classifier_training_step,
   MoCoNb.Classifier_on_train_epoch_end, MoCoNb.Classifier_custom_histogram_weights,
   MoCoNb.Classifier_validation_step, MoCoNb.Classifier_on_validation_epoch_end,
   MoCoNb.Classifier_configure_optimizers,
   MoCoNb.fitMocoCell, MoCoNb.fitClassifierCell]

/-- The framework-mandated hook methods overridden by the two
pl.LightningModule subclasses: training step, validation step, optimizer
configuration and the epoch-end hooks. -/
def frameworkHooks : List Stmt :=
  [MoCoNb.MocoModel_training_step, MoCoNb.MocoModel_on_train_epoch_end,
   MoCoNb.MocoModel_configure_optimizers,
   MoCoNb.Classifier_training_step, MoCoNb.Classifier_validation_step,
   MoCoNb.Classifier_on_train_epoch_end, MoCoNb.Classifier_on_validation_epoch_end,
   MoCoNb.Classifier_configure_optimizers]

/-! Coarse-grained operations a notebook performs, for the claims about the
order of operations within a notebook run. -/

/-- Kinds of top-level operations performed by notebook code. -/
inductive Op where
  | constructDataset
  | constructDataloader
  | defineFrameworkSubclassModel
  | defineTorchModule
  | buildNetwork
  | defineTransform
  | configSetup
  | setSeed
  | constructLoss
  | constructOptimizer
  | constructScheduler
  | runManualTrainingLoop
  | runFrameworkTrainer
  | saveCheckpoint
deriving DecidableEq

/-- Operations of the SimCLR notebook in execution order: SelectStage (a
torch.nn.Module subclass), Detectron2 config setup, backbone and projection
head construction, transform/dataset/dataloader, loss, Adam optimizer, the
manual epoch loop, and the single checkpoint save.  There is no scheduler,
no pl.LightningModule subclass, and no framework trainer in this notebook. -/
def simclrOps : List Op :=
  [.configSetup, .defineTorchModule, .configSetup, .buildNetwork, .buildNetwork,
   .defineTransform, .constructDataset, .constructDataloader,
   .constructLoss, .constructOptimizer, .runManualTrainingLoop, .saveCheckpoint]

/-- Operations of the MoCo notebook in execution order: seed, transforms,
three datasets, three dataloaders, the two pl.LightningModule subclass
definitions, then for each trainer.fit call the optimizer/scheduler
construction performed by the configure_optimizers callback followed by the
trainer-delegated loop.  No repository code saves a checkpoint here. -/
def mocoOps : List Op :=
  [.setSeed, .defineTransform, .defineTransform, .defineTransform,
   .constructDataset, .constructDataset, .constructDataset,
   .constructDataloader, .constructDataloader, .constructDataloader,
   .defineFrameworkSubclassModel, .defineFrameworkSubclassModel,
   .constructOptimizer, .constructScheduler, .runFrameworkTrainer,
   .constructOptimizer, .constructScheduler, .runFrameworkTrainer]

/-- The operation sequence the claim asserts for both notebooks. -/
def claimedPipeline : List Op :=
  [.constructDataset, .constructDataloader, .defineFrameworkSubclassModel,
   .constructOptimizer, .constructScheduler, .runFrameworkTrainer, .saveCheckpoint]

/-- Check that the first list occurs as an ordered subsequence of the second. -/
def isSubseq : List Op → List Op → Bool
  | [], _ => true
  | _ :: _, [] => false
  | a :: as, b :: bs => if a = b then isSubseq as bs else isSubseq (a :: as) (b :: bs).tail

/-! Event traces of the two notebook runs, for the checkpoint-write claim.
A trace lists the persistent-artifact-relevant events the repository code
issues, in order. -/

/-- Events of a notebook run as issued by repository code. -/
inductive RunEv where
  | trainStep
  | trainerFitDelegated
  | checkpointWrite
deriving DecidableEq

/-- One epoch of the SimCLR manual loop: `numBatches` training steps and no
write of any kind. -/
def simclrEpochTrace (numBatches : Nat) : List RunEv :=
  List.replicate numBatches RunEv.trainStep

/-- The SimCLR manual training loop: max_epochs epochs. -/
def simclrTrainingTrace (maxEpochs numBatches : Nat) : List RunEv :=
  (List.range maxEpochs).flatMap fun _ => simclrEpochTrace numBatches

/-- The whole SimCLR notebook run: the training loop, then exactly one
DetectionCheckpointer.save call in the final cell. -/
def simclrRunTrace (maxEpochs numBatches : Nat) : List RunEv :=
  simclrTrainingTrace maxEpochs numBatches ++ [RunEv.checkpointWrite]

/-- The whole MoCo notebook run: repository code delegates twice to
trainer.fit and never itself issues a checkpoint write. -/
def mocoRunTrace : List RunEv :=
  [RunEv.trainerFitDelegated, RunEv.trainerFitDelegated]

/-- Number of repository-issued checkpoint writes in a trace. -/
def writeCount (t : List RunEv) : Nat := t.count RunEv.checkpointWrite

/-- No training step occurs after any checkpoint write in the trace. -/
def noTrainAfterWrite : List RunEv → Bool
  | [] => true
  | RunEv.checkpointWrite :: rest =>
    rest.all (fun e => e != RunEv.trainStep) && noTrainAfterWrite rest
  | _ :: rest => noTrainAfterWrite rest

/-! Dataloader constructions, for the concurrency claim. -/

/-- Arguments of a torch.utils.data.DataLoader construction performed by the
repository. -/
structure DataLoaderArgs where
  batch_size : Nat
  shuffleData : Bool
  drop_last : Bool
  num_workers : Nat
deriving DecidableEq

/-- The four DataLoader constructions in the repository, in source order:
the SimCLR training loader, the MoCo training loader, the classifier
training loader and the test loader.  Both notebooks set num_workers = 8. -/
def repoDataLoaders : List DataLoaderArgs :=
  [⟨128, true, true, 8⟩, ⟨256, true, true, 8⟩, ⟨256, true, true, 8⟩, ⟨256, false, false, 8⟩]

/-- Python concurrency primitives: thread, process and lock creation entry
points.  The repository's call inventory must avoid all of them. -/
def concurrencyPrimitives : List String :=
  ["threading.Thread", "threading.Lock", "threading.RLock", "threading.Semaphore",
   "multiprocessing.Process", "multiprocessing.Pool", "multiprocessing.Lock",
   "concurrent.futures.ThreadPoolExecutor", "concurrent.futures.ProcessPoolExecutor",
   "os.fork", "asyncio.run", "subprocess.Popen"]

/-! Embedding of the docker-compose service definition and of the semantics
of its `tail` command. -/

/-- The compose service definition fields, from docker-compose.yaml.  The
ports list is empty because the service declares no ports key. -/
structure ComposeService where
  container_name : String
  image : String
  userSpec : String
  environment : List String
  volumeTargets : List String
  privileged : Bool
  ports : List String
  command : List String
deriving DecidableEq

/-- The single service (services.main) of docker-compose.yaml. -/
def mainService : ComposeService :=
  { container_name := "USER_NAME-PROJECT_NAME"
    image := "PROJECT_NAME:USER_NAME"
    userSpec := "UID:GID"
    environment := ["DISPLAY", "TORCH_HOME", "HOME"]
    volumeTargets := ["/tmp/.X11-unix", "/dev", "/etc/passwd", "/workspace", "/data"]
    privileged := true
    ports := []
    command := ["tail", "-F", "anything"] }

/-- Files the repository provides under ./workspace, the bind mount that
becomes the container working directory /workspace. -/
def workspaceFiles : List String := ["notebooks/MoCo_cifar-10.ipynb"]

/-- Status of the container main process. -/
inductive ProcState where
  | running
  | exited (code : Nat)
deriving DecidableEq

/-- One scheduling step of `tail` on a single file: with the -F flag tail
keeps retrying when the file does not exist; without the flag a missing file
is a fatal error.  An exited process stays exited. -/
def tailStep (followFlag : Bool) (fileExists : Bool) : ProcState → ProcState
  | .exited c => .exited c
  | .running =>
    if fileExists then .running
    else if followFlag then .running
    else .exited 1

/-- State of the tail process after n scheduling steps, given the file
existence timeline. -/
def tailRun (followFlag : Bool) (fileExists : Nat → Bool) : Nat → ProcState
  | 0 => .running
  | n + 1 => tailStep followFlag (fileExists n) (tailRun followFlag fileExists n)

/-! Numeric model of the MoCo momentum encoder (MocoModel.__init__ and
MocoModel.training_step together with Lightning's automatic optimization).
Parameter tensors are flattened to lists of rationals. -/

/-- Parameter state of a MocoModel instance: the online backbone and
projection head, their momentum copies, and whether the momentum copies
require gradients. -/
structure MocoState where
  backbone : List ℚ
  projection_head : List ℚ
  backbone_momentum : List ℚ
  projection_head_momentum : List ℚ
  momentumRequiresGrad : Bool
deriving DecidableEq

/-- MocoModel.__init__: the momentum backbone and momentum projection head
are copy.deepcopy of the online networks and deactivate_requires_grad is
called on both copies. -/
def mocoModelInit (backboneInit projInit : List ℚ) : MocoState :=
  { backbone := backboneInit
    projection_head := projInit
    backbone_momentum := backboneInit
    projection_head_momentum := projInit
    momentumRequiresGrad := false }

/-- lightly.models.utils.update_momentum: for each parameter pair,
ema_param = ema_param * m + param * (1 - m). -/
def update_momentum (model modelEma : List ℚ) (m : ℚ) : List ℚ :=
  List.zipWith (fun p pEma => pEma * m + p * (1 - m)) model modelEma

/-- Gradients produced by loss.backward() for one parameter list: parameters
with requires_grad = False keep grad = None. -/
def backwardGrads (requiresGrad : Bool) (g : List ℚ) : List (Option ℚ) :=
  if requiresGrad then g.map some else g.map fun _ => none

/-- One optimizer pass over a parameter list: torch.optim.SGD skips every
parameter whose grad is None and applies its per-parameter update rule
(abstracted as `upd`, covering lr, momentum and weight decay) otherwise. -/
def optimizerStep (upd : ℚ → ℚ → ℚ) (params : List ℚ) (grads : List (Option ℚ)) : List ℚ :=
  List.zipWith (fun p g => match g with | none => p | some gr => upd p gr) params grads

/-- One training iteration of MocoModel under Lightning's automatic
optimization: training_step first calls update_momentum on both momentum
networks with m = 0.99, then after backward the SGD configured over
self.parameters() steps every parameter whose grad is present; the momentum
copies produce grads according to their requires_grad flag. -/
def mocoTrainingIteration (upd : ℚ → ℚ → ℚ) (st : MocoState)
    (gB gP gBM gPM : List ℚ) : MocoState :=
  let backboneM := update_momentum st.backbone st.backbone_momentum (99 / 100)
  let projM := update_momentum st.projection_head st.projection_head_momentum (99 / 100)
  { backbone := optimizerStep upd st.backbone (backwardGrads true gB)
    projection_head := optimizerStep upd st.projection_head (backwardGrads true gP)
    backbone_momentum := optimizerStep upd backboneM (backwardGrads st.momentumRequiresGrad gBM)
    projection_head_momentum := optimizerStep upd projM (backwardGrads st.momentumRequiresGrad gPM)
    momentumRequiresGrad := st.momentumRequiresGrad }

/-! Model of lightly's batch_shuffle / batch_unshuffle and of the key path of
MocoModel.training_step. -/

/-- Tensor indexing along the batch dimension: batch[idxs]. -/
def tensorIndex (x : List α) (d : α) (idxs : List Nat) : List α :=
  idxs.map fun i => x.getD i d

/-- lightly.models.utils.batch_shuffle: index the batch by a permutation
(torch.randperm in the source, passed in here) and return it together with
the shuffle. -/
def batch_shuffle (d : α) (batch : List α) (shuffle : List Nat) : List α × List Nat :=
  (tensorIndex batch d shuffle, shuffle)

/-- torch.argsort on a permutation of 0..n-1 produces its inverse: position i
holds the index at which i sits in s. -/
def argsort (s : List Nat) : List Nat :=
  (List.range s.length).map fun i => s.indexOf i

/-- lightly.models.utils.batch_unshuffle: index the batch by the argsort of
the shuffle. -/
def batch_unshuffle (d : α) (batch : List α) (shuffle : List Nat) : List α :=
  tensorIndex batch d (argsort shuffle)

/-- The key path of MocoModel.training_step: shuffle the key batch, run the
momentum encoder (applied independently to each batch element, abstracted as
`fM`), then unshuffle with the returned shuffle indices. -/
def momentumKeysPath (dk : α) (db : β) (fM : α → β) (xk : List α) (s : List Nat) : List β :=
  let ks := batch_shuffle dk xk s
  let enc := ks.1.map fM
  batch_unshuffle db enc ks.2

/-! Model of the Classifier's frozen-backbone training (Classifier.__init__
and Classifier.configure_optimizers). -/

/-- Tag distinguishing the two parameter groups of the Classifier module. -/
inductive ParamTag where
  | backboneTag
  | fcTag
deriving DecidableEq

/-- Parameter state of a Classifier instance. -/
structure ClassifierState where
  backbone : List ℚ
  fc : List ℚ
  backboneRequiresGrad : Bool
deriving DecidableEq

/-- Classifier.__init__: stores the pretrained backbone, calls
deactivate_requires_grad on it, and creates a fresh linear layer. -/
def classifierInit (pretrainedBackbone fcInit : List ℚ) : ClassifierState :=
  { backbone := pretrainedBackbone, fc := fcInit, backboneRequiresGrad := false }

/-- The module's ordered parameter list, each parameter tagged by the
submodule it belongs to. -/
def classifierParameters (st : ClassifierState) : List (ParamTag × ℚ) :=
  st.backbone.map (fun p => (ParamTag.backboneTag, p)) ++ st.fc.map (fun p => (ParamTag.fcTag, p))

/-- Which parameters Classifier.configure_optimizers hands to the optimizer:
torch.optim.SGD(self.fc.parameters(), lr=30.0) receives exactly the fc
parameters. -/
def classifierOptimizerOwns : ParamTag → Bool
  | ParamTag.backboneTag => false
  | ParamTag.fcTag => true

/-- One optimizer step over the module's parameter vector: only the tensors
the optimizer holds (per `owns`) are updated, by the abstract per-parameter
rule `upd`; every other tensor is untouched. -/
def taggedSgdStep (upd : ℚ → ℚ → ℚ) (owns : ParamTag → Bool)
    (ps : List (ParamTag × ℚ)) (gs : List ℚ) : List (ParamTag × ℚ) :=
  List.zipWith (fun tp gr => if owns tp.1 then (tp.1, upd tp.2 gr) else tp) ps gs

/-! Model of Classifier.validation_step and
Classifier.on_validation_epoch_end. -/

/-- The mutable validation state of a Classifier instance: the
validation_step_outputs buffer of (num, correct) pairs. -/
structure ClassifierValState where
  validation_step_outputs : List (Nat × ℚ)
deriving DecidableEq

/-- Classifier.validation_step: num is the batch size (predicted.shape[0]),
correct is the float sum of elementwise prediction/label agreement, and the
pair is appended to validation_step_outputs. -/
def validation_step (st : ClassifierValState) (predicted y : List Nat) :
    ClassifierValState × Nat × ℚ :=
  let num := predicted.length
  let correct : ℚ := (List.zipWith (fun p yy => if p = yy then (1 : ℚ) else 0) predicted y).sum
  (⟨st.validation_step_outputs ++ [(num, correct)]⟩, num, correct)

/-- Accumulated total_num of the epoch-end loop. -/
def totalNum (st : ClassifierValState) : Nat :=
  st.validation_step_outputs.foldl (fun acc nc => acc + nc.1) 0

/-- Accumulated total_correct of the epoch-end loop. -/
def totalCorrect (st : ClassifierValState) : ℚ :=
  st.validation_step_outputs.foldl (fun acc nc => acc + nc.2) 0

/-- Classifier.on_validation_epoch_end: only when validation_step_outputs is
non-empty it accumulates the totals, computes acc = total_correct /
total_num, logs it (the returned Option) and clears the buffer. -/
def on_validation_epoch_end (st : ClassifierValState) : ClassifierValState × Option ℚ :=
  if st.validation_step_outputs.isEmpty then (st, none)
  else (⟨[]⟩, some (totalCorrect st / (totalNum st : ℚ)))

theorem iterE_dich (step : Sched → Except String Sched × Nat)
    (hstep : ∀ d, dich (step d)) : ∀ n d, dich (iterE step n d) := by
  intro n
  induction n with
  | zero => intro d; exact Or.inl ⟨rfl, d, rfl⟩
  | succ k ih =>
    intro d
    have h := hstep d
    rcases hsd : step d with ⟨r, c⟩
    rw [hsd] at h
    rcases r with e | d'
    · rcases h with ⟨hc, _, hok⟩ | ⟨hc, _, herr⟩
      · exact absurd hok (by simp)
      · right
        refine ⟨?_, e, ?_⟩ <;> simp [iterE, hsd, hc]
    · rcases h with ⟨hc, _, hok⟩ | ⟨hc, _, herr⟩
      · have hc0 : c = 0 := hc
        have hrec := ih d'
        rcases hrec with ⟨hc', dd, hok'⟩ | ⟨hc', e, herr'⟩
        · left
          refine ⟨?_, dd, ?_⟩ <;> simp [iterE, hsd, hc0, hc', hok']
        · right
          refine ⟨?_, e, ?_⟩ <;> simp [iterE, hsd, hc0, hc', herr']
      · exact absurd herr (by simp)

theorem runC_dich (fails : String → Option String) :
    ∀ s : Stmt, noTry s = true → ∀ d : Sched, dich (runC fails s d) := by
  intro s
  induction s with
  | atom cs =>
    intro _ d
    rcases h : cs.findSome? fails with _ | e
    · exact Or.inl ⟨by simp [runC, h], d, by simp [runC, h]⟩
    · exact Or.inr ⟨by simp [runC, h], e, by simp [runC, h]⟩
  | ret cs =>
    intro _ d
    rcases h : cs.findSome? fails with _ | e
    · exact Or.inl ⟨by simp [runC, h], d, by simp [runC, h]⟩
    · exact Or.inr ⟨by simp [runC, h], e, by simp [runC, h]⟩
  | skip =>
    intro _ d
    exact Or.inl ⟨by simp [runC], d, by simp [runC]⟩
  | seq a b iha ihb =>
    intro hn d
    rw [noTry, Bool.and_eq_true] at hn
    have ha := iha hn.1 d
    rcases hra : runC fails a d with ⟨ra, ca⟩
    rw [hra] at ha
    rcases ra with e | d'
    · rcases ha with ⟨hc, _, hok⟩ | ⟨hc, _, herr⟩
      · exact absurd hok (by simp)
      · right
        refine ⟨?_, e, ?_⟩ <;> simp [runC, hra, hc]
    · rcases ha with ⟨hc, _, hok⟩ | ⟨hc, _, herr⟩
      · have hc0 : ca = 0 := hc
        have hb := ihb hn.2 d'
        rcases hb with ⟨hc', dd, hok'⟩ | ⟨hc', e, herr'⟩
        · left
          refine ⟨?_, dd, ?_⟩ <;> simp [runC, hra, hc0, hc', hok']
        · right
          refine ⟨?_, e, ?_⟩ <;> simp [runC, hra, hc0, hc', herr']
      · exact absurd herr (by simp)
  | ifStmt t e iht ihe =>
    intro hn d
    rw [noTry, Bool.and_eq_true] at hn
    rcases hb : (takeBranch d).1 with _ | _
    · have := ihe hn.2 (takeBranch d).2
      simpa [runC, hb] using this
    · have := iht hn.1 (takeBranch d).2
      simpa [runC, hb] using this
  | forLoop body ih =>
    intro hn d
    rw [noTry] at hn
    have := iterE_dich (fun dd => runC fails body dd) (fun dd => ih hn dd)
      (takeLoop d).1 (takeLoop d).2
    simpa [runC] using this
  | tryStmt b h ihb ihh =>
    intro hn _
    exact absurd hn (by simp [noTry])

/-- C1 (counterexample): the claimed common pipeline (dataset → dataloader →
framework-subclass model → optimizer/scheduler → framework trainer →
checkpoint save) is not performed by both notebooks: the SimCLR notebook has
no framework trainer and the MoCo notebook has no checkpoint save. -/
theorem c1_pipeline_counterexample :
    ¬ (isSubseq claimedPipeline simclrOps = true ∧ isSubseq claimedPipeline mocoOps = true) := by
  decide

/-- C1 (amended): the MoCo notebook performs dataset → dataloader →
framework-subclass model definition → optimizer/scheduler construction →
trainer-delegated loop but never saves a checkpoint; the SimCLR notebook
performs dataset → dataloader → loss → optimizer → a manual training loop →
a checkpoint save, with no framework trainer, no scheduler and no
framework-base-class model subclass. -/
theorem c1_pipeline_amended :
    isSubseq [Op.constructDataset, Op.constructDataloader, Op.defineFrameworkSubclassModel,
      Op.constructOptimizer, Op.constructScheduler, Op.runFrameworkTrainer] mocoOps = true
    ∧ isSubseq [Op.constructDataset, Op.constructDataloader, Op.constructLoss,
      Op.constructOptimizer, Op.runManualTrainingLoop, Op.saveCheckpoint] simclrOps = true
    ∧ Op.saveCheckpoint ∉ mocoOps
    ∧ Op.runFrameworkTrainer ∉ simclrOps
    ∧ Op.constructScheduler ∉ simclrOps
    ∧ Op.defineFrameworkSubclassModel ∉ simclrOps := by
  decide

/-- C2 (counterexample): not every framework-mandated hook overridden by the
two LightningModule subclasses is straight-line:
Classifier.on_validation_epoch_end contains a conditional (and a loop). -/
theorem c2_hooks_counterexample : frameworkHooks.all straightLine = false := by
  decide

/-- C2 (amended): every framework-mandated hook except
Classifier.on_validation_epoch_end is straight-line (no conditional, no loop,
no try/except); on_validation_epoch_end is guarded by one conditional and
contains one accumulation loop, and no hook contains any error handling. -/
theorem c2_hooks_amended :
    (straightLine MoCoNb.MocoModel_training_step
      && straightLine MoCoNb.MocoModel_on_train_epoch_end
      && straightLine MoCoNb.MocoModel_configure_optimizers
      && straightLine MoCoNb.Classifier_training_step
      && straightLine MoCoNb.Classifier_validation_step
      && straightLine MoCoNb.Classifier_on_train_epoch_end
      && straightLine MoCoNb.Classifier_configure_optimizers) = true
    ∧ straightLine MoCoNb.Classifier_on_validation_epoch_end = false
    ∧ frameworkHooks.all noTry = true := by
  decide

/-- C4: no repository-defined statement contains a try/except, and therefore
for every failure oracle and every schedule, running any repository statement
either raises no exception at all and completes, or raises exactly one
exception which is the uncaught error terminating the run — no retry,
recovery or partial-failure handling step ever executes after a failure. -/
theorem c4_exceptions_propagate :
    (∀ s ∈ repoStmts, noTry s = true)
    ∧ ∀ s ∈ repoStmts, ∀ (fails : String → Option String) (d : Sched), dich (runC fails s d) := by
  have hall : repoStmts.all noTry = true := by decide
  refine ⟨fun s hs => List.all_eq_true.mp hall s hs, fun s hs fails d => ?_⟩
  exact runC_dich fails s (List.all_eq_true.mp hall s hs) d

/-- C4 (witness): the dichotomy applied to the MoCo fit cell under an oracle
that makes trainer.fit raise. -/
theorem c4_exceptions_witness :
    dich (runC (fun c => if c = "trainer.fit" then some "CUDA error" else none)
      MoCoNb.fitMocoCell ⟨[], []⟩) :=
  c4_exceptions_propagate.2 MoCoNb.fitMocoCell (by decide)
    (fun c => if c = "trainer.fit" then some "CUDA error" else none) ⟨[], []⟩

/-- Every event of the SimCLR training loop is a training step. -/
theorem simclrTrainingTrace_all_train (maxEpochs numBatches : Nat) :
    ∀ e ∈ simclrTrainingTrace maxEpochs numBatches, e = RunEv.trainStep := by
  intro e he
  rcases List.mem_flatMap.mp he with ⟨a, _, hmem⟩
  exact List.eq_of_mem_replicate hmem

/-- Appending a single checkpoint write to a trace of training steps yields a
trace with no training step after the write. -/
theorem noTrainAfterWrite_append_write (t : List RunEv)
    (h : ∀ e ∈ t, e = RunEv.trainStep) :
    noTrainAfterWrite (t ++ [RunEv.checkpointWrite]) = true := by
  induction t with
  | nil => decide
  | cons e rest ih =>
    have he : e = RunEv.trainStep := h e (by simp)
    subst he
    simpa [noTrainAfterWrite] using ih fun x hx => h x (by simp [hx])

/-- C5 (counterexample): a MoCo notebook run does not write a checkpoint
exactly once — its repository code issues no checkpoint write at all. -/
theorem c5_checkpoint_counterexample : writeCount mocoRunTrace ≠ 1 := by decide

/-- C5 (amended): the SimCLR notebook run writes its checkpoint exactly once
and only after the whole training loop, never during training; the MoCo
notebook's repository code issues no checkpoint write of its own (any
checkpointing there is internal to the delegated framework trainer). -/
theorem c5_checkpoint_amended (maxEpochs numBatches : Nat) :
    writeCount (simclrRunTrace maxEpochs numBatches) = 1
    ∧ noTrainAfterWrite (simclrRunTrace maxEpochs numBatches) = true
    ∧ writeCount mocoRunTrace = 0 := by
  refine ⟨?_, noTrainAfterWrite_append_write _
    (simclrTrainingTrace_all_train maxEpochs numBatches), by decide⟩
  have h0 : writeCount (simclrTrainingTrace maxEpochs numBatches) = 0 := by
    rw [writeCount, List.count_eq_zero]
    intro hmem
    exact absurd (simclrTrainingTrace_all_train maxEpochs numBatches _ hmem) (by decide)
  rw [simclrRunTrace, writeCount, List.count_append]
  rw [writeCount] at h0
  simp [h0]

/-- C9: the compose service command is tail -F on the file "anything", which
the repository's workspace mount never provides; with the -F flag the tail
process stays running forever under any file-existence timeline (without the
flag it would exit with an error on the missing file), and the service
declares no ports. -/
theorem c9_compose_tail_forever :
    mainService.command = ["tail", "-F", "anything"]
    ∧ mainService.ports = []
    ∧ "anything" ∉ workspaceFiles
    ∧ (∀ fe : Nat → Bool, ∀ n, tailRun true fe n = ProcState.running)
    ∧ tailRun false (fun _ => false) 1 = ProcState.exited 1 := by
  refine ⟨rfl, rfl, by decide, ?_, by decide⟩
  intro fe n
  induction n with
  | zero => rfl
  | succ k ih => simp [tailRun, tailStep, ih]

/-- C10: every DataLoader construction in the repository passes
num_workers = 8, and the repository's own call inventory contains no thread,
process or lock creation primitive. -/
theorem c10_concurrency_decisions :
    (repoDataLoaders.all fun a => a.num_workers == 8) = true
    ∧ ((repoStmts.flatMap stmtCalls).all fun c => !concurrencyPrimitives.contains c) = true := by
  exact ⟨by decide, by decide⟩

/-- An optimizer pass in which every grad is None leaves the parameters
untouched. -/
theorem optimizerStep_none (upd : ℚ → ℚ → ℚ) :
    ∀ xs ys : List ℚ, xs.length ≤ ys.length →
      optimizerStep upd xs (ys.map fun _ => none) = xs := by
  intro xs
  induction xs with
  | nil => intro ys _; rfl
  | cons x xt ih =>
    intro ys hlen
    cases ys with
    | nil => exact absurd hlen (by simp)
    | cons y yt =>
      have h1 : optimizerStep upd (x :: xt) ((y :: yt).map fun _ => none)
          = x :: optimizerStep upd xt (yt.map fun _ => none) := rfl
      rw [h1, ih yt (by simpa using hlen)]

/-- The update_momentum rule at m = 0.99 written in the claim's form:
new momentum parameter = 0.99 * old + 0.01 * online. -/
theorem update_momentum_rule (model ema : List ℚ) :
    update_momentum model ema (99 / 100)
      = List.zipWith (fun p pM => (99 / 100 : ℚ) * pM + (1 / 100 : ℚ) * p) model ema := by
  rw [update_momentum]
  congr 1
  funext p pEma
  ring

/-- C3: the momentum encoder starts as a deep copy of the online networks
with gradients deactivated, and across a full training iteration (momentum
update inside training_step, then the optimizer pass) each momentum parameter
becomes exactly 0.99 * old + 0.01 * online — independently of the optimizer
rule and of any candidate gradients, so the momentum parameters never receive
a gradient update from the optimizer. -/
theorem c3_momentum_encoder_invariant (upd : ℚ → ℚ → ℚ) (st : MocoState)
    (gB gP gBM gPM : List ℚ)
    (hm : st.momentumRequiresGrad = false)
    (hb : st.backbone.length ≤ gBM.length)
    (hp : st.projection_head.length ≤ gPM.length) :
    (mocoTrainingIteration upd st gB gP gBM gPM).backbone_momentum
      = List.zipWith (fun p pM => (99 / 100 : ℚ) * pM + (1 / 100 : ℚ) * p)
          st.backbone st.backbone_momentum
    ∧ (mocoTrainingIteration upd st gB gP gBM gPM).projection_head_momentum
      = List.zipWith (fun p pM => (99 / 100 : ℚ) * pM + (1 / 100 : ℚ) * p)
          st.projection_head st.projection_head_momentum
    ∧ (mocoTrainingIteration upd st gB gP gBM gPM).momentumRequiresGrad = false
    ∧ ∀ b p : List ℚ, (mocoModelInit b p).backbone_momentum = b
        ∧ (mocoModelInit b p).projection_head_momentum = p
        ∧ (mocoModelInit b p).momentumRequiresGrad = false := by
  have hnone : backwardGrads false gBM = gBM.map fun _ => none := by
    simp [backwardGrads]
  have hnoneP : backwardGrads false gPM = gPM.map fun _ => none := by
    simp [backwardGrads]
  have hlenB : (update_momentum st.backbone st.backbone_momentum (99 / 100)).length
      ≤ gBM.length := by
    rw [update_momentum, List.length_zipWith]
    exact le_trans (min_le_left _ _) hb
  have hlenP : (update_momentum st.projection_head st.projection_head_momentum (99 / 100)).length
      ≤ gPM.length := by
    rw [update_momentum, List.length_zipWith]
    exact le_trans (min_le_left _ _) hp
  refine ⟨?_, ?_, ?_, fun b p => ⟨rfl, rfl, rfl⟩⟩
  · have h1 : (mocoTrainingIteration upd st gB gP gBM gPM).backbone_momentum
        = optimizerStep upd (update_momentum st.backbone st.backbone_momentum (99 / 100))
            (backwardGrads st.momentumRequiresGrad gBM) := rfl
    rw [h1, hm, hnone, optimizerStep_none upd _ gBM hlenB, update_momentum_rule]
  · have h1 : (mocoTrainingIteration upd st gB gP gBM gPM).projection_head_momentum
        = optimizerStep upd
            (update_momentum st.projection_head st.projection_head_momentum (99 / 100))
            (backwardGrads st.momentumRequiresGrad gPM) := rfl
    rw [h1, hm, hnoneP, optimizerStep_none upd _ gPM hlenP, update_momentum_rule]
  · have h1 : (mocoTrainingIteration upd st gB gP gBM gPM).momentumRequiresGrad
        = st.momentumRequiresGrad := rfl
    rw [h1, hm]

/-- C3 (witness): the invariant applied to a freshly initialized MocoModel
state with concrete gradients and a concrete optimizer rule. -/
theorem c3_momentum_witness :
    (mocoTrainingIteration (fun p g => p - g) (mocoModelInit [1, 2] [3])
        [5, 5] [6] [7, 7] [8]).backbone_momentum
      = List.zipWith (fun p pM => (99 / 100 : ℚ) * pM + (1 / 100 : ℚ) * p) [1, 2] [1, 2] :=
  (c3_momentum_encoder_invariant (fun p g => p - g) (mocoModelInit [1, 2] [3])
    [5, 5] [6] [7, 7] [8] rfl (by decide) (by decide)).1

/-- Folding batch sizes onto an accumulator never decreases it. -/
theorem le_foldl_add (l : List (Nat × ℚ)) :
    ∀ a : Nat, a ≤ l.foldl (fun acc nc => acc + nc.1) a := by
  induction l with
  | nil => intro a; simp
  | cons nc t ih =>
    intro a
    calc a ≤ a + nc.1 := Nat.le_add_right _ _
      _ ≤ t.foldl (fun acc nc => acc + nc.1) (a + nc.1) := ih _
      _ = (nc :: t).foldl (fun acc nc => acc + nc.1) a := by simp

/-- C6: Classifier.on_validation_epoch_end leaves the
validation_step_outputs buffer empty after every call; under the non-empty
guard with positive accumulated batch sizes the divisor total_num is
positive; on the empty buffer no accuracy is computed; and validation_step
only ever appends positive batch sizes for non-empty batches. -/
theorem c6_validation_guard (st : ClassifierValState) :
    (on_validation_epoch_end st).1.validation_step_outputs = []
    ∧ ((∀ nc ∈ st.validation_step_outputs, 0 < nc.1) →
        st.validation_step_outputs ≠ [] → 0 < totalNum st)
    ∧ (st.validation_step_outputs = [] → (on_validation_epoch_end st).2 = none)
    ∧ ∀ predicted y : List Nat, (∀ nc ∈ st.validation_step_outputs, 0 < nc.1) →
        predicted ≠ [] →
        ∀ nc ∈ (validation_step st predicted y).1.validation_step_outputs, 0 < nc.1 := by
  refine ⟨?_, ?_, ?_, ?_⟩
  · cases h : st.validation_step_outputs.isEmpty with
    | true => simp [on_validation_epoch_end, h, List.isEmpty_iff.mp h]
    | false => simp [on_validation_epoch_end, h]
  · intro hpos hne
    rcases hlist : st.validation_step_outputs with _ | ⟨nc, t⟩
    · exact absurd hlist hne
    · rw [totalNum, hlist]
      have h1 : 0 < nc.1 := hpos nc (by rw [hlist]; exact List.mem_cons_self _ _)
      calc 0 < nc.1 := h1
        _ ≤ t.foldl (fun acc nc => acc + nc.1) nc.1 := le_foldl_add t nc.1
        _ = (nc :: t).foldl (fun acc nc => acc + nc.1) 0 := by simp
  · intro h
    simp [on_validation_epoch_end, h]
  · intro predicted y hpos hne nc hmem
    have hmem' : nc ∈ st.validation_step_outputs
        ++ [(predicted.length,
              (List.zipWith (fun p yy => if p = yy then (1 : ℚ) else 0) predicted y).sum)] :=
      hmem
    rcases List.mem_append.mp hmem' with h | h
    · exact hpos nc h
    · have h2 := List.mem_singleton.mp h
      rw [h2]
      exact List.length_pos.mpr hne

/-- C6 (witness): positivity of the divisor on a singleton buffer with batch
size 2. -/
theorem c6_validation_witness : 0 < totalNum ⟨[(2, 1)]⟩ :=
  (c6_validation_guard ⟨[(2, 1)]⟩).2.1 (by decide) (by decide)

/-- An optimizer step never touches parameters whose tag the optimizer does
not own. -/
theorem taggedSgdStep_unowned (upd : ℚ → ℚ → ℚ) (owns : ParamTag → Bool) (t : ParamTag)
    (ht : owns t = false) :
    ∀ xs gs : List ℚ, xs.length ≤ gs.length →
      taggedSgdStep upd owns (xs.map fun p => (t, p)) gs = xs.map fun p => (t, p) := by
  intro xs
  induction xs with
  | nil => intro gs _; rfl
  | cons x xt ih =>
    intro gs hlen
    cases gs with
    | nil => exact absurd hlen (by simp)
    | cons g gt =>
      have h1 : taggedSgdStep upd owns ((x :: xt).map fun p => (t, p)) (g :: gt)
          = (if owns t then (t, upd x g) else (t, x))
            :: taggedSgdStep upd owns (xt.map fun p => (t, p)) gt := rfl
      rw [h1, ht, ih gt (by simpa using hlen)]
      simp

/-- An optimizer step preserves the tag of every parameter. -/
theorem taggedSgdStep_tags (upd : ℚ → ℚ → ℚ) (owns : ParamTag → Bool) (t : ParamTag) :
    ∀ xs gs : List ℚ, ∀ tp ∈ taggedSgdStep upd owns (xs.map fun p => (t, p)) gs, tp.1 = t := by
  intro xs
  induction xs with
  | nil => intro gs tp h; exact absurd h (by simp [taggedSgdStep])
  | cons x xt ih =>
    intro gs tp h
    cases gs with
    | nil => exact absurd h (by simp [taggedSgdStep])
    | cons g gt =>
      have h1 : taggedSgdStep upd owns ((x :: xt).map fun p => (t, p)) (g :: gt)
          = (if owns t then (t, upd x g) else (t, x))
            :: taggedSgdStep upd owns (xt.map fun p => (t, p)) gt := rfl
      rw [h1] at h
      rcases List.mem_cons.mp h with h2 | h2
      · cases ho : owns t <;> simp [ho] at h2 <;> simp [h2]
      · exact ih gt tp h2

/-- C7: since Classifier.__init__ deactivates the backbone's gradient
requirement and configure_optimizers hands the optimizer only the fc
parameters, an optimizer step over the module's tagged parameter vector
leaves every backbone parameter exactly unchanged, for any optimizer rule
and any gradients. -/
theorem c7_classifier_backbone_frame (upd : ℚ → ℚ → ℚ) (st : ClassifierState) (gs : List ℚ)
    (hgs : (classifierParameters st).length ≤ gs.length) :
    ((taggedSgdStep upd classifierOptimizerOwns (classifierParameters st) gs).filter
        (fun tp => tp.1 == ParamTag.backboneTag)).map Prod.snd = st.backbone
    ∧ ∀ b f : List ℚ, (classifierInit b f).backboneRequiresGrad = false := by
  refine ⟨?_, fun b f => rfl⟩
  have hA : st.backbone.length ≤ gs.length := by
    have : st.backbone.length ≤ (classifierParameters st).length := by
      rw [classifierParameters, List.length_append, List.length_map]
      exact Nat.le_add_right _ _
    exact le_trans this hgs
  have hsplit : gs = gs.take st.backbone.length ++ gs.drop st.backbone.length :=
    (List.take_append_drop _ _).symm
  have hlen1 : (st.backbone.map fun p => (ParamTag.backboneTag, p)).length
      = (gs.take st.backbone.length).length := by
    rw [List.length_map, List.length_take]
    exact (Nat.min_eq_left hA).symm
  rw [classifierParameters]
  rw [hsplit, taggedSgdStep, List.zipWith_append _ _ _ _ _ hlen1]
  rw [List.filter_append]
  have hfirst : List.zipWith
      (fun tp gr => if classifierOptimizerOwns tp.1 then (tp.1, upd tp.2 gr) else tp)
      (st.backbone.map fun p => (ParamTag.backboneTag, p)) (gs.take st.backbone.length)
      = st.backbone.map fun p => (ParamTag.backboneTag, p) := by
    have := taggedSgdStep_unowned upd classifierOptimizerOwns ParamTag.backboneTag rfl
      st.backbone (gs.take st.backbone.length) (le_of_eq (by simpa using hlen1))
    simpa [taggedSgdStep] using this
  have hsecond : (List.zipWith
      (fun tp gr => if classifierOptimizerOwns tp.1 then (tp.1, upd tp.2 gr) else tp)
      (st.fc.map fun p => (ParamTag.fcTag, p)) (gs.drop st.backbone.length)).filter
      (fun tp => tp.1 == ParamTag.backboneTag) = [] := by
    rw [List.filter_eq_nil_iff]
    intro tp htp
    have := taggedSgdStep_tags upd classifierOptimizerOwns ParamTag.fcTag
      st.fc (gs.drop st.backbone.length) tp (by simpa [taggedSgdStep] using htp)
    simp [this]
  rw [hfirst, hsecond, List.append_nil]
  have hkeep : (st.backbone.map fun p => (ParamTag.backboneTag, p)).filter
      (fun tp => tp.1 == ParamTag.backboneTag)
      = st.backbone.map fun p => (ParamTag.backboneTag, p) := by
    rw [List.filter_eq_self]
    intro tp htp
    rcases List.mem_map.mp htp with ⟨p, _, hp⟩
    rw [← hp]
    rfl
  rw [hkeep, List.map_map]
  simp

/-- C7 (witness): the frame property on a concrete frozen classifier. -/
theorem c7_classifier_witness :
    ((taggedSgdStep (fun p g => p - g) classifierOptimizerOwns
        (classifierParameters (classifierInit [1, 2] [3])) [4, 5, 6]).filter
        (fun tp => tp.1 == ParamTag.backboneTag)).map Prod.snd = [1, 2] :=
  (c7_classifier_backbone_frame (fun p g => p - g) (classifierInit [1, 2] [3]) [4, 5, 6]
    (by decide)).1

/-- C8: in the key path of MocoModel.training_step, batch_unshuffle with the
shuffle indices returned by batch_shuffle inverts the shuffle around the
(batch-elementwise) momentum encoder: for every permutation of the batch
indices, the unshuffled key embeddings equal the encoder mapped over the
original batch, so the i-th output corresponds to the i-th input image. -/
theorem c8_shuffle_unshuffle (dk db : ℚ) (fM : ℚ → ℚ) (xk : List ℚ) (s : List Nat)
    (hs : s.Perm (List.range xk.length)) :
    momentumKeysPath dk db fM xk s = xk.map fM := by
  have hlen : s.length = xk.length := by simpa using hs.length_eq
  have hbound : ∀ i, i < xk.length → i ∈ s := fun i hi =>
    hs.mem_iff.mpr (List.mem_range.mpr hi)
  have hrepr : momentumKeysPath dk db fM xk s
      = (List.range s.length).map
          fun t => ((s.map fun j => xk.getD j dk).map fM).getD (s.indexOf t) db := by
    simp [momentumKeysPath, batch_shuffle, batch_unshuffle, tensorIndex, argsort,
      List.map_map]
  rw [hrepr]
  apply List.ext_getElem
  · simp [hlen]
  · intro i h1 h2
    have hi : i < xk.length := by simpa using h2
    have himem : i ∈ s := hbound i hi
    have hidx : s.indexOf i < s.length := List.indexOf_lt_length.mpr himem
    have hb2 : s.indexOf i < ((s.map fun j => xk.getD j dk).map fM).length := by
      simpa using hidx
    rw [List.getElem_map, List.getElem_range, List.getD_eq_getElem _ _ hb2,
      List.getElem_map, List.getElem_map, List.getElem_map]
    congr 1
    rw [List.getElem_indexOf hidx]
    exact List.getD_eq_getElem xk dk hi

/-- C8 (witness): the inversion at a concrete batch and permutation. -/
theorem c8_shuffle_witness :
    momentumKeysPath (0 : ℚ) (0 : ℚ) (fun q => q + 1) ([10, 20, 30] : List ℚ) [2, 0, 1]
      = List.map (fun q => q + 1) ([10, 20, 30] : List ℚ) :=
  c8_shuffle_unshuffle 0 0 (fun q => q + 1) [10, 20, 30] [2, 0, 1] (by decide)

end SSL
